import Mathlib

/-!
Verification of the BeetsV7 music-ingestion pipeline against its
specification.  Each Python module relevant to the checked properties is
shallowly embedded as executable Lean definitions; theorems below settle
the spec claims against those definitions.
-/

namespace BeetsV7

/-! ### String helpers

`strLower` models Python's `str.lower()` (character-wise, ASCII range).
`containsSub hay sub` models Python's `sub in hay` substring test.
-/

def strLower (s : String) : String := String.mk (s.data.map Char.toLower)

/-- `matchesAt sub hay` : `sub` occurs at the very beginning of `hay`. -/
def matchesAt : List Char → List Char → Bool
  | [], _ => true
  | _ :: _, [] => false
  | a :: as, b :: bs => a == b && matchesAt as bs

/-- `containsSeq hay sub` : `sub` occurs contiguously somewhere in `hay`. -/
def containsSeq : List Char → List Char → Bool
  | [], sub => sub.isEmpty
  | c :: t, sub => matchesAt sub (c :: t) || containsSeq t sub

def containsSub (hay sub : String) : Bool := containsSeq hay.data sub.data

/-! ### Model of `scripts/pipeline/fuzzy.py` -/

/-- `STOPWORDS` from fuzzy.py. -/
def STOPWORDS : List String :=
  ["a", "an", "the", "and", "with", "from", "this", "that"]

/-- `_is_numeric` from fuzzy.py: Python `str.isdigit()` (true iff the token is
nonempty and all digits). -/
def is_numeric_tok (t : String) : Bool := !t.data.isEmpty && t.data.all Char.isDigit

/-- One character of the `re.sub(r"[^a-z0-9]+", " ", text)` step: any character
outside `a`-`z` / `0`-`9` becomes a space.  The regex collapses runs into a
single space, but since `str.split()` discards empty fields the per-character
replacement yields the same token list. -/
def keepAlnum (c : Char) : Char :=
  if ('a' ≤ c ∧ c ≤ 'z') ∨ ('0' ≤ c ∧ c ≤ '9') then c else ' '

/-- Python `str.split()` on a space-separated character list: splits on runs of
spaces and never yields empty fields.  `acc` holds the current word reversed. -/
def splitWordsAux : List Char → List Char → List String
  | [], acc => if acc.isEmpty then [] else [String.mk acc.reverse]
  | c :: rest, acc =>
    if c == ' ' then
      if acc.isEmpty then splitWordsAux rest []
      else String.mk acc.reverse :: splitWordsAux rest []
    else splitWordsAux rest (c :: acc)

def splitWords (cs : List Char) : List String := splitWordsAux cs []

/-- `tokenize` from fuzzy.py: lowercase, replace non-alphanumerics with spaces,
split, and drop empty, stopword and purely-numeric tokens. -/
def tokenize (text : String) : List String :=
  let replaced := (strLower text).data.map keepAlnum
  (splitWords replaced).filter
    (fun t => !t.isEmpty && !STOPWORDS.contains t && !is_numeric_tok t)

/-- `fuzzy_match` from fuzzy.py: false when either side is empty, otherwise
true iff some token of `path_tokens` also occurs in `folder_tokens`. -/
def fuzzy_match (path_tokens folder_tokens : List String) : Bool :=
  if path_tokens.isEmpty || folder_tokens.isEmpty then false
  else path_tokens.any (fun t => folder_tokens.contains t)

/-! ### Model of `scripts/pipeline/slskd.py` -/

structure SlskdFile where
  state : String
  filename : String

structure SlskdDir where
  directory : String
  files : List SlskdFile

structure SlskdUser where
  username : String
  directories : List SlskdDir

/-- `incomplete_states` from `slskd_active_transfers` (the "OPTION 2 FIX"):
only actively-downloading states, not queued/requested ones. -/
def incompleteStates : List String := ["initializing", "inprogress"]

/-- `any(s in state for s in incomplete_states)` with `state = file["state"].lower()`. -/
def fileIsActive (f : SlskdFile) : Bool :=
  incompleteStates.any (fun s => containsSub (strLower f.state) s)

/-- `slskd_active_transfers()`.  The argument is the value returned by
`slskd_get_transfers()`: `none` models total retry failure (`None`), `some`
the parsed JSON user list.  `if not transfers: return []` maps both `None`
and the empty list to `[]`. -/
def slskd_active_transfers : Option (List SlskdUser) → List String
  | none => []
  | some users =>
    if users.isEmpty then []
    else
      users.flatMap fun u =>
        u.directories.flatMap fun d =>
          d.files.filterMap fun f =>
            if fileIsActive f = true ∧ f.filename ≠ "" then some f.filename else none

/-- `artist_in_use(artist_folder, active_paths)` from slskd.py. -/
def artist_in_use (folder_name : String) (active_paths : List String) : Bool :=
  if active_paths.isEmpty then false
  else
    let folder_tokens := tokenize folder_name
    active_paths.any fun p => fuzzy_match (tokenize p) folder_tokens

/-! ### Model of `scripts/pipeline_controller_v7.py` -/

/-- The operations the controller can invoke during a drain.
`dedupPrelibrary` names the entry point of `scripts/pipeline/dedup.py`; it is
listed so that its absence from the drain sequence can be stated. -/
inductive DrainStep where
  | quarantineFailedImports
  | runFingerprint
  | runBeetsImport
  | runPostImport
  | clearPrelibrary
  | dedupPrelibrary
deriving DecidableEq

/-- The body of `drain_prelibrary(reason)` (controller lines 146-153), in
source order: quarantine failed imports, fingerprint, beets import,
post-import, clear. -/
def drain_prelibrary_steps : List DrainStep :=
  [.quarantineFailedImports, .runFingerprint, .runBeetsImport,
   .runPostImport, .clearPrelibrary]

/-- `clear_prelibrary()`: iterates the children of the staging root and removes
each one except the child named `failed_imports` (removal failures are only
logged; this models the success path).  Returns the surviving child names. -/
def clear_prelibrary (children : List String) : List String :=
  children.filter (fun n => n == "failed_imports")

/-- `prelibrary_usage_pct()`: statvfs result as blocks/free-blocks/fragment
size.  `none` models both a missing staging root and a failed statvfs call
(the `except` branch). -/
structure VfsStat where
  f_blocks : Nat
  f_bfree : Nat
  f_frsize : Nat

def prelibrary_usage_pct : Option VfsStat → ℚ
  | none => 0
  | some s =>
    let total : ℚ := (s.f_blocks : ℚ) * (s.f_frsize : ℚ)
    let free : ℚ := (s.f_bfree : ℚ) * (s.f_frsize : ℚ)
    if total = 0 then 0 else (total - free) / total * 100

def PRELIB_DRAIN_THRESHOLD : ℚ := 85

/-- The guard of `maybe_drain_prelibrary()`: true iff a proactive drain is
triggered (`pct >= PRELIB_DRAIN_THRESHOLD`). -/
def maybe_drain_prelibrary (st : Option VfsStat) : Bool :=
  decide (PRELIB_DRAIN_THRESHOLD ≤ prelibrary_usage_pct st)

/-! ### Model of `scripts/pipeline/quarantine.py` -/

def illegalFilenameChars : List Char := ['/', '\\', ':', '*', '?', '"', '<', '>', '|']

/-- `sanitize_for_filename`: each illegal character becomes `-`. -/
def sanitize_for_filename (text : String) : String :=
  String.mk (text.data.map (fun c => if c ∈ illegalFilenameChars then '-' else c))

/-- Python `sep.join(parts)`. -/
def joinSep (sep : String) : List String → String
  | [] => ""
  | [p] => p
  | p :: rest => p ++ sep ++ joinSep sep rest

/-- `flatten_quarantine_filename` on the parts of the original path: drop
empty, `/` and `failed_imports` components, join with ` - `, sanitize. -/
def flatten_quarantine_filename (parts : List String) : String :=
  sanitize_for_filename
    (joinSep " - "
      (parts.filter (fun p => !(p == "" || p == "/" || p == "failed_imports"))))

/-- One iteration of the copy loop in `quarantine_folder`: the quarantine root
is a name-to-contents map (association list), and `shutil.copy2` writes the
flattened destination name, replacing any existing file of that name. -/
def quarantine_copy (st : List (String × String)) (relParts : List String)
    (content : String) : List (String × String) :=
  let dst := flatten_quarantine_filename relParts
  st.filter (fun e => e.1 != dst) ++ [(dst, content)]

/-! ### Model of `scripts/pipeline/dedup.py` -/

/-- `FORMAT_SCORE` from dedup.py. -/
def FORMAT_SCORE : List (String × Nat) :=
  [("flac", 100), ("alac", 95), ("aiff", 90), ("wav", 85), ("m4a", 80),
   ("ogg", 70), ("mp3", 60), ("aac", 55), ("wma", 40)]

/-- `FORMAT_SCORE.get(fmt, 50)`. -/
def fmtScore (fmt : String) : Nat := (FORMAT_SCORE.lookup fmt).getD 50

/-- The format table exactly as the spec words it: flac 100, alac 95, aiff 90,
wav 85, m4a 80, ogg 70, mp3 60, aac 55, wma 40, and 50 for any other format.
Stated separately from `fmtScore` so the code's dictionary lookup can be
proved to refine the spec's table. -/
def spec_format_score (fmt : String) : Nat :=
  if fmt = "flac" then 100
  else if fmt = "alac" then 95
  else if fmt = "aiff" then 90
  else if fmt = "wav" then 85
  else if fmt = "m4a" then 80
  else if fmt = "ogg" then 70
  else if fmt = "mp3" then 60
  else if fmt = "aac" then 55
  else if fmt = "wma" then 40
  else 50

/-- Python `getattr(info, field, d) or d`: a missing attribute and a falsy
(zero) value both fall back to the default. -/
def orDefault (v : Option Nat) (d : Nat) : Nat :=
  match v with
  | none => d
  | some 0 => d
  | some n => n

/-- The fields `quality_score` reads off a readable mutagen file: the resolved
format string (`_get_format`) and the three optional stream attributes. -/
structure AudioInfo where
  fmt : String
  bits_per_sample : Option Nat
  sample_rate : Option Nat
  bitrate : Option Nat

/-- `quality_score` (dedup.py lines 147-152) for a readable file. -/
def quality_score (a : AudioInfo) : Nat :=
  fmtScore a.fmt * 1000000 +
  orDefault a.bits_per_sample 16 * 10000 +
  (orDefault a.sample_rate 44100) / 1000 * 100 +
  (orDefault a.bitrate 0) / 1000

/-- `_mb_confirm(candidates, fp_map)`: `rid f` is the MusicBrainz recording id
the AcoustID lookup resolves `f` to with score > 0.8 (`none` when the lookup
fails, errors out, or no result clears the score bar).  With no resolutions
the candidates pass through; with one distinct id they are confirmed; with
several distinct ids only the first candidate is returned
(`return candidates[:1]`). -/
def mb_confirm (candidates : List String) (rid : String → Option String) :
    List String :=
  match candidates.filterMap rid with
  | [] => candidates
  | r :: rs => if rs.all (fun v => v == r) then candidates else candidates.take 1

/-- `sorted(duplicates, key=quality_score, reverse=True)`: stable descending
insertion sort on the score. -/
def insertByDesc (score : String → Nat) (x : String) : List String → List String
  | [] => [x]
  | y :: ys => if score y ≤ score x then x :: y :: ys else y :: insertByDesc score x ys

def sortByScoreDesc (score : String → Nat) : List String → List String
  | [] => []
  | x :: xs => insertByDesc score x (sortByScoreDesc score xs)

/-- The cluster-resolution step of `tier2_dedup` (lines 364-383): once a
similarity cluster `duplicates` has been collected, optionally confirm it via
MusicBrainz, sort by quality, keep the winner and reject the rest.  Returns
(keepers, rejected loser-winner pairs); each rejected pair is subsequently
moved to the rejected area by `dedup_prelibrary`. -/
def processCluster (duplicates : List String) (rid : String → Option String)
    (score : String → Nat) (useMB : Bool) : List String × List (String × String) :=
  if 1 < duplicates.length then
    let ds := if useMB then mb_confirm duplicates rid else duplicates
    match sortByScoreDesc score ds with
    | [] => ([], [])
    | w :: losers => ([w], losers.map fun l => (l, w))
  else (duplicates, [])

/-- A concrete AcoustID resolution in which the two cluster members resolve to
different recordings. -/
def ridExample (f : String) : Option String :=
  if f = "a.flac" then some "mbid-1"
  else if f = "b.flac" then some "mbid-2"
  else none

/-! ### Model of `scripts/pipeline/cleanup.py` -/

/-- `AUDIO_EXTS` from cleanup.py. -/
def AUDIO_EXTS : List String := [".flac", ".mp3", ".m4a", ".aac", ".ogg", ".wav"]

/-- `SAFE_FILES` from the standalone `cleanup_non_audio_files_v7.py` script
(the safe-image list the spec refers to). -/
def SAFE_FILES : List String := ["cover.jpg", "cover.png", "folder.jpg", "folder.png"]

/-- `SAFE_IMAGE_EXTS` from `cleanup_non_audio_files_v7.py`. -/
def SAFE_IMAGE_EXTS : List String := [".jpg", ".jpeg", ".png", ".webp"]

/-- Python `pathlib.PurePath.suffix`: the final `.xyz` component, empty when
there is no dot, the dot is the first character, or the dot is last. -/
def path_suffix (name : String) : String :=
  let cs := name.data
  let after := (cs.reverse.takeWhile (fun c => c != '.')).reverse
  if after.length = cs.length then ""
  else if cs.length - after.length - 1 = 0 then ""
  else if after.length = 0 then ""
  else String.mk ('.' :: after)

/-- An artist folder as `cleanup_inbox_junk` sees it: top-level file names and
subfolders with their contents (one level suffices: the first loop only
touches `artist_folder.iterdir()` files, and a subfolder survives the second
loop iff it is nonempty). -/
structure ArtistDir where
  files : List String
  subdirs : List (String × List String)

/-- `cleanup_inbox_junk(artist_folder)`: unlink every top-level file whose
lowercased suffix is not an audio extension, then remove empty subfolders. -/
def cleanup_inbox_junk (d : ArtistDir) : ArtistDir :=
  { files := d.files.filter (fun n => AUDIO_EXTS.contains (strLower (path_suffix n))),
    subdirs := d.subdirs.filter (fun s => !s.2.isEmpty) }

/-! ### Model of `scripts/pipeline/settle.py` -/

/-- Outcome of the `os.walk` + per-file `stat` loop in `folder_is_settled`:
the walk can fail with not-found (folder disappeared), fail otherwise, or
yield the mtimes of the files it could stat (files that disappear between
walk and stat are skipped and contribute nothing). -/
inductive WalkResult where
  | disappeared
  | failed
  | ok (mtimes : List Int)

/-- `folder_is_settled(path, min_age_seconds)` evaluated at time `now`. -/
def folder_is_settled (w : WalkResult) (now min_age : Int) : Bool :=
  match w with
  | .disappeared => true
  | .failed => false
  | .ok mtimes =>
    let newest := mtimes.foldl max 0
    if newest = 0 then true else decide (min_age ≤ now - newest)

/-! ## Theorems -/

/-! ### Helper lemmas -/

theorem fuzzy_match_iff (a b : List String) :
    fuzzy_match a b = true ↔ ∃ t, t ∈ a ∧ t ∈ b := by
  unfold fuzzy_match
  cases ha : a.isEmpty
  · cases hb : b.isEmpty
    · simp [ha, hb, List.any_eq_true, List.elem_iff]
    · rw [List.isEmpty_iff] at hb
      subst hb
      simp
  · rw [List.isEmpty_iff] at ha
    subst ha
    simp

theorem artist_in_use_iff (folder : String) (paths : List String) :
    artist_in_use folder paths = true ↔
      ∃ p ∈ paths, ∃ t, t ∈ tokenize p ∧ t ∈ tokenize folder := by
  unfold artist_in_use
  cases hp : paths.isEmpty
  · simp only [Bool.false_eq_true, if_false, List.any_eq_true]
    exact exists_congr fun p => and_congr_right fun _ => fuzzy_match_iff _ _
  · rw [List.isEmpty_iff] at hp
    subst hp
    simp

/-! ### C2: which transfer states count as active -/

/-- C2 (amended): a filename is in the active set iff the response contains a
file record with that nonempty filename whose lowercased state has
`initializing` or `inprogress` as a substring; `queued` and `requested`
transfers are not counted. -/
theorem slskd_active_transfers_mem (users : List SlskdUser) (x : String) :
    x ∈ slskd_active_transfers (some users) ↔
      ∃ u ∈ users, ∃ d ∈ u.directories, ∃ f ∈ d.files,
        f.filename = x ∧ x ≠ "" ∧
        (containsSub (strLower f.state) "initializing" = true ∨
         containsSub (strLower f.state) "inprogress" = true) := by
  unfold slskd_active_transfers
  cases hu : users.isEmpty
  · simp only [hu, Bool.false_eq_true, if_false, List.mem_flatMap, List.mem_filterMap]
    constructor
    · rintro ⟨u, hu, d, hd, f, hf, hsome⟩
      rw [Option.ite_none_right_eq_some, Option.some.injEq] at hsome
      obtain ⟨⟨hact, hne⟩, hx⟩ := hsome
      subst hx
      refine ⟨u, hu, d, hd, f, hf, rfl, hne, ?_⟩
      simpa [fileIsActive, incompleteStates, Bool.or_eq_true] using hact
    · rintro ⟨u, hu, d, hd, f, hf, hx, hne, hact⟩
      subst hx
      refine ⟨u, hu, d, hd, f, hf, ?_⟩
      rw [Option.ite_none_right_eq_some, Option.some.injEq]
      refine ⟨⟨?_, hne⟩, rfl⟩
      simpa [fileIsActive, incompleteStates, Bool.or_eq_true] using hact
  · rw [List.isEmpty_iff] at hu
    subst hu
    simp

/-- C2 counterexample: a transfer whose state is `Queued` satisfies the
claim's activity test (its lowercased state contains `queued`) but the code
leaves the active set empty. -/
theorem slskd_queued_not_in_active_set :
    containsSub (strLower "Queued") "queued" = true ∧
    slskd_active_transfers
      (some [⟨"user", [⟨"Music Oasis", [⟨"Queued", "x.flac"⟩]⟩]⟩]) = [] := by
  constructor
  · decide
  · decide

/-! ### C3: behaviour when every transfer-probe retry fails -/

/-- C3: when `slskd_get_transfers` exhausts all retries it returns `None`
(logging "treating SLSKD as busy"), but `slskd_active_transfers` maps `None`
to the empty active set, so `artist_in_use` reports every folder as idle and
folders are moved despite the failed probe. -/
theorem slskd_total_failure_reports_idle :
    slskd_active_transfers none = [] ∧
    artist_in_use "Oasis" (slskd_active_transfers none) = false := by
  exact ⟨rfl, rfl⟩

/-! ### C4: tokenization and the busy check -/

/-- C4: a folder is reported in use iff some active path shares a token with
the folder name; tokens never are stopwords, purely numeric, or empty; and the
purely-numeric example from the spec does not match. -/
theorem busy_iff_token_overlap :
    (∀ folder paths, artist_in_use folder paths = true ↔
        ∃ p ∈ paths, ∃ t, t ∈ tokenize p ∧ t ∈ tokenize folder) ∧
    (∀ s t, t ∈ tokenize s →
        STOPWORDS.contains t = false ∧ is_numeric_tok t = false ∧ t ≠ "") ∧
    artist_in_use "10 Great Songs" ["03 - Track.flac"] = false := by
  refine ⟨artist_in_use_iff, ?_, by decide⟩
  intro s t ht
  unfold tokenize at ht
  rw [List.mem_filter] at ht
  obtain ⟨-, hprop⟩ := ht
  simp only [Bool.and_eq_true, Bool.not_eq_true'] at hprop
  obtain ⟨⟨hemp, hstop⟩, hnum⟩ := hprop
  refine ⟨hstop, hnum, ?_⟩
  intro h
  subst h
  exact absurd hemp (by decide)

/-- Witness for C4: the filter facts evaluated at the spec's example path and
its token `track`. -/
theorem busy_iff_token_overlap_witness :
    STOPWORDS.contains "track" = false ∧ is_numeric_tok "track" = false ∧
    "track" ≠ "" :=
  busy_iff_token_overlap.2.1 "03 - Track.flac" "track" (by decide)

/-! ### C1: what the staging drain actually runs -/

/-- C1 counterexample: the drain sequence of `drain_prelibrary` contains no
invocation of the Deduplicator, so it cannot run it before the cataloguer
import. -/
theorem dedup_not_invoked_in_drain :
    DrainStep.dedupPrelibrary ∉ drain_prelibrary_steps := by decide

/-- C1 (amended): the drain quarantines failed imports before the cataloguer
import, runs the import before the final clear, ends with the clear, never
runs the Deduplicator, and the clear removes every staging child except
`failed_imports`. -/
theorem drain_sequence_spec :
    drain_prelibrary_steps.indexOf DrainStep.quarantineFailedImports <
      drain_prelibrary_steps.indexOf DrainStep.runBeetsImport ∧
    drain_prelibrary_steps.indexOf DrainStep.runBeetsImport <
      drain_prelibrary_steps.indexOf DrainStep.clearPrelibrary ∧
    drain_prelibrary_steps.getLast? = some DrainStep.clearPrelibrary ∧
    DrainStep.dedupPrelibrary ∉ drain_prelibrary_steps ∧
    (∀ children n, n ∈ clear_prelibrary children ↔
        n ∈ children ∧ n = "failed_imports") := by
  refine ⟨by decide, by decide, by decide, by decide, ?_⟩
  intro children n
  simp [clear_prelibrary, List.mem_filter]

/-! ### C5: flattened quarantine names and collisions -/

theorem lookup_append_single_ne (l : List (String × String)) (d c n : String)
    (h : n ≠ d) : List.lookup n (l ++ [(d, c)]) = List.lookup n l := by
  induction l with
  | nil =>
    have hnd : (n == d) = false := by simp [h]
    simp [List.lookup, hnd]
  | cons e rest ih =>
    obtain ⟨k, v⟩ := e
    simp only [List.cons_append, List.lookup]
    cases hk : n == k
    · exact ih
    · rfl

theorem lookup_filter_ne (st : List (String × String)) (d n : String)
    (h : n ≠ d) :
    List.lookup n (st.filter (fun e => e.1 != d)) = List.lookup n st := by
  induction st with
  | nil => rfl
  | cons e rest ih =>
    obtain ⟨k, v⟩ := e
    by_cases hk : k = d
    · subst hk
      have hnk : (n == k) = false := by simp [h]
      simp [List.filter_cons, List.lookup, hnk, ih]
    · simp only [List.filter_cons]
      rw [if_pos (by simp [hk])]
      simp only [List.lookup]
      cases hnk : n == k
      · exact ih
      · rfl

theorem lookup_quarantine_dst (st : List (String × String)) (d c : String) :
    List.lookup d (st.filter (fun e => e.1 != d) ++ [(d, c)]) = some c := by
  induction st with
  | nil => simp [List.lookup]
  | cons e rest ih =>
    obtain ⟨k, v⟩ := e
    by_cases hk : k = d
    · subst hk
      simp only [List.filter_cons]
      rw [if_neg (by simp)]
      exact ih
    · simp only [List.filter_cons]
      rw [if_pos (by simp [hk])]
      simp only [List.cons_append, List.lookup]
      have hdk : (d == k) = false := by simp [Ne.symm hk]
      rw [hdk]
      exact ih

/-- C5 (amended): a quarantined file is written under its flattened name
(path separators become ` - `, illegal filename characters become `-`, no
timestamp is appended); a file already stored under that same name is
replaced by the copy, and all other quarantine entries are untouched. -/
theorem quarantine_flatten_overwrite (st : List (String × String))
    (parts : List String) (c : String) :
    List.lookup (flatten_quarantine_filename parts)
      (quarantine_copy st parts c) = some c ∧
    ∀ n, n ≠ flatten_quarantine_filename parts →
      List.lookup n (quarantine_copy st parts c) = List.lookup n st := by
  constructor
  · exact lookup_quarantine_dst st _ c
  · intro n hn
    unfold quarantine_copy
    rw [lookup_append_single_ne _ _ _ _ hn]
    exact lookup_filter_ne st _ n hn

/-- Witness for C5 (amended): concrete overwrite and frame at small inputs. -/
theorem quarantine_flatten_overwrite_witness :
    List.lookup "other.flac"
      (quarantine_copy [("other.flac", "keep")] ["Artist", "x.flac"] "new") =
      List.lookup "other.flac" [("other.flac", "keep")] :=
  (quarantine_flatten_overwrite [("other.flac", "keep")] ["Artist", "x.flac"]
    "new").2 "other.flac" (by decide)

/-- C5 counterexample: the flattened destination name of
`Artist/Album/track01.flac` carries no timestamp, and quarantining that file
silently replaces an existing quarantine entry of the same name. -/
theorem quarantine_overwrite_counterexample :
    flatten_quarantine_filename ["Artist", "Album", "track01.flac"] =
      "Artist - Album - track01.flac" ∧
    List.lookup "Artist - Album - track01.flac"
      (quarantine_copy [("Artist - Album - track01.flac", "existing contents")]
        ["Artist", "Album", "track01.flac"] "new contents") =
      some "new contents" := by
  exact ⟨by decide, by decide⟩

/-! ### C6: Tier-3 false positives -/

/-- C6 (amended): when two members of a Tier-2 cluster resolve to different
recording identifiers, `_mb_confirm` hands back only the first candidate, so
the cluster produces no rejections at all: the keeper list shrinks to at most
one entry and no file is moved to the rejected area. -/
theorem mb_false_positive_no_rejections (dups : List String)
    (rid : String → Option String) (score : String → Nat) (a b : String)
    (ha : a ∈ dups) (hb : b ∈ dups) (ra rb : String)
    (hra : rid a = some ra) (hrb : rid b = some rb) (hne : ra ≠ rb) :
    (processCluster dups rid score true).2 = [] ∧
    (processCluster dups rid score true).1.length ≤ 1 := by
  have hmem_a : ra ∈ dups.filterMap rid := List.mem_filterMap.mpr ⟨a, ha, hra⟩
  have hmem_b : rb ∈ dups.filterMap rid := List.mem_filterMap.mpr ⟨b, hb, hrb⟩
  have hmb : mb_confirm dups rid = dups.take 1 := by
    unfold mb_confirm
    rcases hv : dups.filterMap rid with _ | ⟨r, rs⟩
    · rw [hv] at hmem_a
      exact absurd hmem_a (List.not_mem_nil _)
    · rw [hv] at hmem_a hmem_b
      show (if (rs.all fun v => v == r) = true then dups else List.take 1 dups) =
        List.take 1 dups
      rw [if_neg]
      intro hall
      rw [List.all_eq_true] at hall
      have hva : ra = r := by
        rcases List.mem_cons.mp hmem_a with h | h
        · exact h
        · exact beq_iff_eq.mp (hall _ h)
      have hvb : rb = r := by
        rcases List.mem_cons.mp hmem_b with h | h
        · exact h
        · exact beq_iff_eq.mp (hall _ h)
      exact hne (hva.trans hvb.symm)
  by_cases hlen : 1 < dups.length
  · unfold processCluster
    rw [if_pos hlen, if_pos rfl, hmb]
    rcases dups with _ | ⟨d, rest⟩
    · simp at hlen
    · simp [List.take, sortByScoreDesc, insertByDesc]
  · unfold processCluster
    rw [if_neg hlen]
    refine ⟨rfl, ?_⟩
    show dups.length ≤ 1
    omega

/-- Witness for C6 (amended): the general theorem applied to the concrete
two-file cluster. -/
theorem mb_false_positive_no_rejections_witness :
    (processCluster ["a.flac", "b.flac"] ridExample (fun _ => 0) true).2 = [] ∧
    (processCluster ["a.flac", "b.flac"] ridExample (fun _ => 0) true).1.length ≤ 1 :=
  mb_false_positive_no_rejections ["a.flac", "b.flac"] ridExample (fun _ => 0)
    "a.flac" "b.flac" (by decide) (by decide) "mbid-1" "mbid-2"
    (by decide) (by decide) (by decide)

/-- C6 counterexample: a two-file cluster whose members resolve to different
recordings keeps `a.flac` as the only keeper yet rejects nothing — `b.flac`
is not moved to the rejected area, contrary to the claim. -/
theorem mb_false_positive_counterexample :
    ridExample "a.flac" = some "mbid-1" ∧
    ridExample "b.flac" = some "mbid-2" ∧
    (processCluster ["a.flac", "b.flac"] ridExample (fun _ => 0) true).1 =
      ["a.flac"] ∧
    (processCluster ["a.flac", "b.flac"] ridExample (fun _ => 0) true).2 = [] := by
  refine ⟨by decide, by decide, by decide, by decide⟩

/-! ### C7: the quality score formula -/

theorem fmtScore_eq_spec (s : String) : fmtScore s = spec_format_score s := by
  by_cases h1 : s = "flac"
  · subst h1; decide
  by_cases h2 : s = "alac"
  · subst h2; decide
  by_cases h3 : s = "aiff"
  · subst h3; decide
  by_cases h4 : s = "wav"
  · subst h4; decide
  by_cases h5 : s = "m4a"
  · subst h5; decide
  by_cases h6 : s = "ogg"
  · subst h6; decide
  by_cases h7 : s = "mp3"
  · subst h7; decide
  by_cases h8 : s = "aac"
  · subst h8; decide
  by_cases h9 : s = "wma"
  · subst h9; decide
  have b1 : (s == "flac") = false := beq_eq_false_iff_ne.mpr h1
  have b2 : (s == "alac") = false := beq_eq_false_iff_ne.mpr h2
  have b3 : (s == "aiff") = false := beq_eq_false_iff_ne.mpr h3
  have b4 : (s == "wav") = false := beq_eq_false_iff_ne.mpr h4
  have b5 : (s == "m4a") = false := beq_eq_false_iff_ne.mpr h5
  have b6 : (s == "ogg") = false := beq_eq_false_iff_ne.mpr h6
  have b7 : (s == "mp3") = false := beq_eq_false_iff_ne.mpr h7
  have b8 : (s == "aac") = false := beq_eq_false_iff_ne.mpr h8
  have b9 : (s == "wma") = false := beq_eq_false_iff_ne.mpr h9
  simp [fmtScore, FORMAT_SCORE, spec_format_score, List.lookup,
    b1, b2, b3, b4, b5, b6, b7, b8, b9, h1, h2, h3, h4, h5, h6, h7, h8, h9]

theorem spec_format_score_mul5 (s : String) : 5 ∣ spec_format_score s := by
  unfold spec_format_score
  split_ifs <;> decide

/-- C7: the quality score equals the spec's packed formula over the spec's
format table, and with realistically bounded lower-tier fields a strictly
better format always yields a strictly higher score. -/
theorem quality_score_spec :
    (∀ a : AudioInfo, quality_score a =
        spec_format_score a.fmt * 1000000 +
        orDefault a.bits_per_sample 16 * 10000 +
        (orDefault a.sample_rate 44100) / 1000 * 100 +
        (orDefault a.bitrate 0) / 1000) ∧
    (∀ a b : AudioInfo,
        spec_format_score b.fmt < spec_format_score a.fmt →
        orDefault b.bits_per_sample 16 ≤ 64 →
        orDefault b.sample_rate 44100 ≤ 1536000 →
        orDefault b.bitrate 0 ≤ 100000000 →
        quality_score b < quality_score a) := by
  have hq : ∀ a : AudioInfo, quality_score a =
      spec_format_score a.fmt * 1000000 +
      orDefault a.bits_per_sample 16 * 10000 +
      (orDefault a.sample_rate 44100) / 1000 * 100 +
      (orDefault a.bitrate 0) / 1000 := by
    intro a
    unfold quality_score
    rw [fmtScore_eq_spec]
  refine ⟨hq, ?_⟩
  intro a b hfmt hbd hsr hbr
  rw [hq a, hq b]
  have h5a := spec_format_score_mul5 a.fmt
  have h5b := spec_format_score_mul5 b.fmt
  have hsr' : (orDefault b.sample_rate 44100) / 1000 ≤ 1536 := by
    calc (orDefault b.sample_rate 44100) / 1000 ≤ 1536000 / 1000 :=
          Nat.div_le_div_right hsr
      _ = 1536 := by norm_num
  have hbr' : (orDefault b.bitrate 0) / 1000 ≤ 100000 := by
    calc (orDefault b.bitrate 0) / 1000 ≤ 100000000 / 1000 :=
          Nat.div_le_div_right hbr
      _ = 100000 := by norm_num
  omega

/-- Witness for C7: a bounded mp3 file scores strictly below a flac file. -/
theorem quality_score_spec_witness :
    quality_score ⟨"mp3", some 16, some 44100, some 320000⟩ <
      quality_score ⟨"flac", some 24, some 96000, some 0⟩ :=
  quality_score_spec.2 ⟨"flac", some 24, some 96000, some 0⟩
    ⟨"mp3", some 16, some 44100, some 320000⟩
    (by decide) (by decide) (by decide) (by decide)

/-! ### C8: junk cleanup and cover art -/

/-- C8 counterexample: `cover.jpg` is on the safe-image list and has a safe
image extension, yet `cleanup_inbox_junk` removes it from the artist folder. -/
theorem cleanup_removes_cover_art :
    SAFE_FILES.contains "cover.jpg" = true ∧
    strLower (path_suffix "cover.jpg") ∈ SAFE_IMAGE_EXTS ∧
    (cleanup_inbox_junk ⟨["cover.jpg", "01.flac"], []⟩).files = ["01.flac"] := by
  refine ⟨by decide, by decide, by decide⟩

/-- C8 (amended): junk cleanup keeps a top-level file iff its lowercased
extension is an audio extension — every non-audio file, images included, is
removed — and keeps a subfolder iff it is nonempty. -/
theorem cleanup_inbox_junk_spec (d : ArtistDir) :
    (∀ n, n ∈ (cleanup_inbox_junk d).files ↔
        n ∈ d.files ∧ strLower (path_suffix n) ∈ AUDIO_EXTS) ∧
    (∀ s, s ∈ (cleanup_inbox_junk d).subdirs ↔ s ∈ d.subdirs ∧ s.2 ≠ []) := by
  constructor
  · intro n
    simp [cleanup_inbox_junk, List.mem_filter, List.elem_iff]
  · intro s
    have hne : ∀ l : List String, l.isEmpty = false ↔ l ≠ [] := by
      intro l
      cases l <;> simp
    simp [cleanup_inbox_junk, List.mem_filter, Bool.not_eq_true', hne]

/-! ### C9: empty folders settle immediately -/

/-- C9: a folder whose walk succeeds but yields no files (empty, or holding
only empty subfolders) is reported settled for every current time and every
`min_age_seconds`. -/
theorem settled_when_no_files (now min_age : Int) :
    folder_is_settled (.ok []) now min_age = true := rfl

/-! ### C10: staging usage on monitoring failure -/

/-- C10: a missing staging root or failed statvfs call yields usage 0, which
never reaches the 85% drain threshold, and a degenerate zero-size filesystem
behaves the same. -/
theorem usage_failure_never_drains :
    prelibrary_usage_pct none = 0 ∧
    maybe_drain_prelibrary none = false ∧
    (∀ s : VfsStat, s.f_blocks * s.f_frsize = 0 →
        prelibrary_usage_pct (some s) = 0 ∧
        maybe_drain_prelibrary (some s) = false) := by
  have hthresh : ¬ PRELIB_DRAIN_THRESHOLD ≤ (0 : ℚ) := by
    unfold PRELIB_DRAIN_THRESHOLD
    norm_num
  refine ⟨rfl, ?_, ?_⟩
  · unfold maybe_drain_prelibrary
    simp [prelibrary_usage_pct, hthresh]
  · intro s h
    have htot : ((s.f_blocks : ℚ) * (s.f_frsize : ℚ)) = 0 := by
      have := congrArg (fun n : Nat => (n : ℚ)) h
      push_cast at this
      exact this
    have hp : prelibrary_usage_pct (some s) = 0 := by
      simp [prelibrary_usage_pct, htot]
    refine ⟨hp, ?_⟩
    unfold maybe_drain_prelibrary
    simp [hp, hthresh]

/-- Witness for C10: the zero-size filesystem case evaluated concretely. -/
theorem usage_failure_never_drains_witness :
    prelibrary_usage_pct (some ⟨0, 7, 4096⟩) = 0 ∧
    maybe_drain_prelibrary (some ⟨0, 7, 4096⟩) = false :=
  usage_failure_never_drains.2.2 ⟨0, 7, 4096⟩ (by decide)

end BeetsV7
